import Mathlib

/-!
# Mattermost ping bot (`bot.go`)

A shallow embedding of `bot.go`: the bootstrap sequence of `main`, the event
handler `handleWebSocket` and the reply helper `sendReplyMsgToChannel`.

The calls made on the Mattermost client library are recorded, in order, in a
trace of `Op` values.  The answers of the server are a parameter (`Client`).
Go strings are modelled as Lean strings.  The post body reaching the regular
expression was produced by the JSON decoder and is therefore valid UTF-8, and
the expression only distinguishes ASCII word characters from everything else.
-/

namespace Bot

/-! ## Constants of `bot.go` -/

def botEmail : String := "bot@example.com"
def botPassword : String := "password1"
def botName : String := "samplebot"
def teamName : String := "test"
def monitorTownSquare : Bool := false

/-- Event kind of a newly created post, `model.WEBSOCKET_EVENT_POSTED` of the
client library. -/
def WEBSOCKET_EVENT_POSTED : String := "posted"

/-! ## Records of the client library -/

/-- Fields of `model.Post` that the bot reads or writes; a fresh `&model.Post{}`
has every field empty. -/
structure Post where
  Id : String := ""
  UserId : String := ""
  ChannelId : String := ""
  RootId : String := ""
  Message : String := ""
  deriving DecidableEq, Repr

structure User where
  Id : String
  Username : String
  deriving DecidableEq, Repr

structure Team where
  Id : String
  Name : String
  deriving DecidableEq, Repr

structure Channel where
  Id : String
  Name : String
  deriving DecidableEq, Repr

/-- Dynamically typed value of a payload entry (Go `interface{}`).  The handler
only observes whether the value is a string. -/
inductive Value where
  | str (s : String)
  | bool (b : Bool)
  | num (n : Int)
  | null
  deriving DecidableEq, Repr

/-- Websocket event `model.WebSocketEvent`: a kind and a payload map. -/
structure WebSocketEvent where
  Event : String
  Data : List (String × Value)
  deriving DecidableEq, Repr

/-- Map index `m[key]`: the first binding of the key, `none` for the nil
interface value of a missing key. -/
def mapIndex (m : List (String × Value)) (key : String) : Option Value :=
  match m with
  | [] => none
  | (k, v) :: rest => if k = key then some v else mapIndex rest key

/-- Type assertion `x.(string)` in its one-result form: `none` is the run-time
failure raised for a nil interface or a value of another dynamic type. -/
def assertString (x : Option Value) : Option String :=
  match x with
  | some (Value.str s) => some s
  | _ => none

/-! ## Observable operations -/

/-- One call made on the client library, or one line printed. -/
inductive Op where
  | GetPing
  | Login (name password : String)
  | GetInitialLoad
  | SetTeamId (id : String)
  | GetChannels (etag : String)
  | NewWebSocketClient (url authToken : String)
  | Listen
  | CreatePost (post : Post)
  | Println (s : String)
  | Printf (format arg : String)
  deriving DecidableEq, Repr

/-- Answers of the server behind `model.Client`.  `CreatePost` may depend on
everything done so far, so a second attempt could succeed where the first one
failed; `some e` is an error with text `e`. -/
structure Client where
  GetPing : Except String (List (String × String))
  Login : String → String → Except String (User × String)
  GetInitialLoad : Except String (List Team)
  GetChannels : String → Except String (List Channel)
  NewWebSocketClient : String → String → Except String Unit
  CreatePost : List Op → Post → Option String

/-! ## The regular expression -/

/-- Syntax of the regular expressions used by the bot (no repetition). -/
inductive Regexp where
  | beginText
  | endText
  | literal (c : Char)
  | notWordChar
  | concat (r s : Regexp)
  | alternate (r s : Regexp)
  deriving DecidableEq, Repr

/-- Perl class `\w` of Go regexps: `[0-9A-Za-z_]`. -/
def isWordChar (c : Char) : Bool :=
  c.isAlphanum || c == '_'

/-- All ways to match `r` at position `pos`, where `rest` is the text from
`pos` on: the list of (position, remaining text) pairs after a match.  With
no flags, `^` holds at the start of the text only and `$` at its end only. -/
def Regexp.run : Regexp → Nat → List Char → List (Nat × List Char)
  | .beginText, pos, rest => if pos = 0 then [(pos, rest)] else []
  | .endText, pos, rest => if rest = [] then [(pos, rest)] else []
  | .literal c, pos, rest =>
    match rest with
    | d :: ds => if d = c then [(pos + 1, ds)] else []
    | [] => []
  | .notWordChar, pos, rest =>
    match rest with
    | d :: ds => if isWordChar d then [] else [(pos + 1, ds)]
    | [] => []
  | .concat r s, pos, rest =>
    (r.run pos rest).flatMap (fun st => s.run st.1 st.2)
  | .alternate r s, pos, rest => r.run pos rest ++ s.run pos rest

/-- Unanchored search: is there a match starting at `pos` or later. -/
def Regexp.search (re : Regexp) : Nat → List Char → Bool
  | pos, [] => !(re.run pos []).isEmpty
  | pos, c :: cs => !(re.run pos (c :: cs)).isEmpty || re.search (pos + 1) cs

/-- Go `regexp.MatchString`: does the text contain any match of the pattern. -/
def MatchString (re : Regexp) (s : String) : Bool :=
  re.search 0 s.toList

/-- The pattern `(?:^|\W)ping(?:$|\W)`. -/
def pingPattern : Regexp :=
  .concat (.alternate .beginText .notWordChar)
    (.concat (.literal 'p') (.concat (.literal 'i') (.concat (.literal 'n')
      (.concat (.literal 'g') (.alternate .endText .notWordChar)))))

/-! ## The handler -/

/-- How a function call ended. -/
inductive Completion where
  | returned
  | panicked
  deriving DecidableEq, Repr

/-- Calls made by a function, oldest first, and how it ended. -/
structure Run where
  ops : List Op
  completion : Completion
  deriving DecidableEq, Repr

/-- Function `sendReplyMsgToChannel`; `done` is the trace before the call. -/
def sendReplyMsgToChannel (client : Client) (done : List Op)
    (msg channelID replyToID : String) : Run :=
  let post : Post := { ChannelId := channelID, Message := msg, RootId := replyToID }
  match client.CreatePost done post with
  | some err =>
    { ops := [Op.CreatePost post,
              Op.Println "Failed to send a message to the channel",
              Op.Println err],
      completion := .returned }
  | none => { ops := [Op.CreatePost post], completion := .returned }

/-- Function `handleWebSocket`.  `PostFromJson` is the decoder of the client
library (`none` for its nil result); `done` is the trace before the call. -/
def handleWebSocket (PostFromJson : String → Option Post) (client : Client)
    (done : List Op) (event : WebSocketEvent) (userID : String)
    (channelIDsToIgnore : List String) : Run :=
  if event.Event ≠ WEBSOCKET_EVENT_POSTED then
    { ops := [], completion := .returned }
  else
    match assertString (mapIndex event.Data "post") with
    | none => { ops := [], completion := .panicked }
    | some text =>
      match PostFromJson text with
      | none => { ops := [], completion := .returned }
      | some post =>
        if post.UserId = userID then
          { ops := [], completion := .returned }
        else if channelIDsToIgnore.any (fun channelID => channelID = post.ChannelId) then
          { ops := [], completion := .returned }
        else if MatchString pingPattern post.Message then
          sendReplyMsgToChannel client done "PONG" post.ChannelId post.Id
        else
          { ops := [], completion := .returned }

/-- Posts handed to `CreatePost` in a trace, oldest first. -/
def createdPosts (ops : List Op) : List Post :=
  ops.filterMap (fun op => match op with
    | Op.CreatePost p => some p
    | _ => none)

/-! ## The dispatcher loop -/

/-- The receive loop started by `main`, run on the events delivered so far, in
delivery order.  `returned` means that every event was handled and the loop
waits for the next one; a handler that fails ends the loop. -/
def dispatch (PostFromJson : String → Option Post) (client : Client)
    (userID : String) (channelIDsToIgnore : List String) :
    List Op → List WebSocketEvent → Run
  | _, [] => { ops := [], completion := .returned }
  | done, resp :: later =>
    let r := handleWebSocket PostFromJson client done resp userID channelIDsToIgnore
    match r.completion with
    | .panicked => { ops := r.ops, completion := .panicked }
    | .returned =>
      let r2 := dispatch PostFromJson client userID channelIDsToIgnore (done ++ r.ops) later
      { ops := r.ops ++ r2.ops, completion := r2.completion }

/-! ## Bootstrap -/

/-- How the start-up part of `main` ended. -/
inductive Ending where
  | exited (status : Nat)
  | panicked
  | serving (userID : String) (channelIDsToIgnore : List String)
  deriving DecidableEq, Repr

/-- Calls made by the program, oldest first, and how it ended. -/
structure Boot where
  ops : List Op
  ending : Ending
  deriving DecidableEq, Repr

/-- Index `props[key]` of a string map: the empty string for a missing key. -/
def propsIndex (props : List (String × String)) (key : String) : String :=
  match props with
  | [] => ""
  | (k, v) :: rest => if k = key then v else propsIndex rest key

/-- Body of the loop over the channel list: the state is the ignore list and
the lines printed so far. -/
def channelStep (monitor : Bool) (st : List String × List Op) (channel : Channel) :
    List String × List Op :=
  if channel.Name = "town-square" then
    if monitor then
      (st.1, st.2 ++ [Op.Println channel.Name])
    else
      (st.1 ++ [channel.Id], st.2)
  else
    (st.1, st.2 ++ [Op.Println channel.Name])

/-- The loop over the channel list, started with the nil ignore list. -/
def scanChannels (monitor : Bool) (channels : List Channel) : List String × List Op :=
  channels.foldl (channelStep monitor) ([], [])

/-- The ignore list built by the loop over the channel list. -/
def buildIgnoreList (monitor : Bool) (channels : List Channel) : List String :=
  (scanChannels monitor channels).1

/-- Start-up part of `main`, up to `webSocketClient.Listen()`, for a given
team name and town-square flag. -/
def bootstrap (configuredTeam : String) (monitor : Bool) (client : Client) : Boot :=
  match client.GetPing with
  | .error err =>
    { ops := [Op.GetPing,
        Op.Println "There was a problem pinging the Mattermost server.  Are you sure it's running?",
        Op.Println err],
      ending := .exited 1 }
  | .ok props =>
    let t1 := [Op.GetPing,
      Op.Println ("Server detected and is running version " ++ propsIndex props "version")]
    match client.Login botName botPassword with
    | .error err =>
      { ops := t1 ++ [Op.Login botName botPassword,
          Op.Println "There was a problem logging into the Mattermost server.  Are you sure ran the setup steps from the README.md?",
          Op.Println err],
        ending := .exited 1 }
    | .ok (botUser, authToken) =>
      let t2 := t1 ++ [Op.Login botName botPassword]
      match client.GetInitialLoad with
      | .error err =>
        { ops := t2 ++ [Op.GetInitialLoad,
            Op.Println "We failed to get the initial load",
            Op.Println err],
          ending := .exited 1 }
      | .ok teams =>
        let t3 := t2 ++ [Op.GetInitialLoad]
        match teams.find? (fun team => team.Name = configuredTeam) with
        | none =>
          { ops := t3 ++ [Op.Println
              ("We do not appear to be a member of the team '" ++ configuredTeam ++ "'")],
            ending := .exited 1 }
        | some botTeam =>
          let t4 := t3 ++ [Op.SetTeamId botTeam.Id, Op.GetChannels ""]
          let scanned : List String × List Op :=
            match client.GetChannels botTeam.Id with
            | .error err => ([], [Op.Printf "Couldn't get channels: %q\n" err])
            | .ok channels =>
              let st := scanChannels monitor channels
              (st.1, Op.Println "Monitoring these channels:" :: st.2)
          let t6 := t4 ++ scanned.2 ++ [Op.NewWebSocketClient "ws://localhost:8065" authToken]
          match client.NewWebSocketClient "ws://localhost:8065" authToken with
          | .error err =>
            -- the nil client is used right away: `Listen` and the receive loop
            -- dereference it
            { ops := t6 ++ [Op.Println "We failed to connect to the web socket",
                Op.Println err, Op.Listen],
              ending := .panicked }
          | .ok _ =>
            { ops := t6 ++ [Op.Listen], ending := .serving botUser.Id scanned.1 }

/-- The program on the events delivered before it is interrupted: start-up,
then the receive loop. -/
def mainWith (configuredTeam : String) (monitor : Bool)
    (PostFromJson : String → Option Post) (client : Client)
    (events : List WebSocketEvent) : Boot :=
  let b := bootstrap configuredTeam monitor client
  match b.ending with
  | .serving userID channelIDsToIgnore =>
    let r := dispatch PostFromJson client userID channelIDsToIgnore b.ops events
    { ops := b.ops ++ r.ops,
      ending := match r.completion with
        | .panicked => .panicked
        | .returned => .serving userID channelIDsToIgnore }
  | _ => b

/-- Function `main` with the constants of `bot.go`. -/
def main (PostFromJson : String → Option Post) (client : Client)
    (events : List WebSocketEvent) : Boot :=
  mainWith teamName monitorTownSquare PostFromJson client events

/-! ## Whole-word occurrences -/

/-- Whole-word occurrence in the words of the specification, to be compared
with `MatchString pingPattern`: the text holds a lowercase `ping` that is
preceded by the start of the text or a non-word character and followed by the
end of the text or a non-word character. -/
def WholeWordPing (s : List Char) : Prop :=
  ∃ before after, s = before ++ 'p' :: 'i' :: 'n' :: 'g' :: after ∧
    (before = [] ∨ ∃ c, before.getLast? = some c ∧ isWordChar c = false) ∧
    (after = [] ∨ ∃ c, after.head? = some c ∧ isWordChar c = false)

/-! ## Sample inputs -/

/-- A decoder for examples: the text is taken as the body of a post by user
`u1` in channel `c1`; the text `bad` does not decode. -/
def sampleDecoder (text : String) : Option Post :=
  if text = "bad" then none
  else some { Id := "p1", UserId := "u1", ChannelId := "c1", Message := text }

/-- A server for examples, on which every call succeeds. -/
def sampleClient : Client where
  GetPing := .ok [("version", "3.4.0")]
  Login := fun _ _ => .ok ({ Id := "bot", Username := "samplebot" }, "token")
  GetInitialLoad := .ok [{ Id := "t1", Name := "test" }, { Id := "t2", Name := "other" }]
  GetChannels := fun _ =>
    .ok [{ Id := "c0", Name := "town-square" }, { Id := "c1", Name := "general" }]
  NewWebSocketClient := fun _ _ => .ok ()
  CreatePost := fun _ _ => none

/-- A posted event whose payload is the given text. -/
def postedEvent (text : String) : WebSocketEvent :=
  { Event := "posted", Data := [("post", Value.str text)] }

/-- A server for examples on which only `CreatePost` fails, and only on the first
attempt. -/
def busyClient : Client :=
  { sampleClient with
    CreatePost := fun done _ => if createdPosts done = [] then some "server busy" else none }

/-- A server for examples on which only the channel listing fails. -/
def noChannelsClient : Client :=
  { sampleClient with GetChannels := fun _ => .error "no channels" }

/-- A server for examples whose team list lacks the configured team. -/
def otherTeamsClient : Client :=
  { sampleClient with GetInitialLoad := .ok [{ Id := "t2", Name := "other" }] }

/-- A server for examples that cannot be reached. -/
def downClient : Client :=
  { sampleClient with GetPing := .error "connection refused" }

/-- Team ids handed to `SetTeamId` in a trace, oldest first. -/
def boundTeams (ops : List Op) : List String :=
  ops.filterMap (fun op => match op with
    | Op.SetTeamId id => some id
    | _ => none)

/-- Operations that `main` performs only after a team was selected: team
binding, channel listing, the websocket, and the creation of posts. -/
def needsTeam (op : Op) : Bool :=
  match op with
  | Op.SetTeamId _ => true
  | Op.GetChannels _ => true
  | Op.NewWebSocketClient _ _ => true
  | Op.Listen => true
  | Op.CreatePost _ => true
  | _ => false

/-! ## The pattern and whole-word occurrences -/

/-- The text after an occurrence allows the final `(?:$|\W)`. -/
def endOk (after : List Char) : Prop :=
  after = [] ∨ ∃ c, after.head? = some c ∧ isWordChar c = false

/-- The part `ping(?:$|\W)` of the pattern. -/
def pingTail : Regexp :=
  .concat (.literal 'p') (.concat (.literal 'i') (.concat (.literal 'n')
    (.concat (.literal 'g') (.alternate .endText .notWordChar))))

theorem run_literal_cons (c d : Char) (pos : Nat) (ds : List Char) :
    (Regexp.literal c).run pos (d :: ds) = if d = c then [(pos + 1, ds)] else [] := rfl

theorem run_literal_nil (c : Char) (pos : Nat) :
    (Regexp.literal c).run pos [] = [] := rfl

theorem run_concat (r s : Regexp) (pos : Nat) (rest : List Char) :
    (Regexp.concat r s).run pos rest =
      (r.run pos rest).flatMap (fun st => s.run st.1 st.2) := rfl

theorem run_alternate (r s : Regexp) (pos : Nat) (rest : List Char) :
    (Regexp.alternate r s).run pos rest = r.run pos rest ++ s.run pos rest := rfl

theorem run_closing (pos : Nat) (after : List Char) :
    ((Regexp.alternate .endText .notWordChar).run pos after).isEmpty = false ↔
      endOk after := by
  cases after with
  | nil => simp [Regexp.run, endOk]
  | cons c cs =>
    by_cases h : isWordChar c = true <;> simp [Regexp.run, endOk, h]

theorem run_literal_concat (c : Char) (s : Regexp) (pos : Nat) (rest : List Char) :
    ((Regexp.concat (.literal c) s).run pos rest).isEmpty = false ↔
      ∃ ds, rest = c :: ds ∧ (s.run (pos + 1) ds).isEmpty = false := by
  cases rest with
  | nil => simp [run_concat, run_literal_nil]
  | cons d ds =>
    by_cases h : d = c
    · subst h
      simp [run_concat, run_literal_cons]
    · have h2 : ¬ c = d := fun e => h e.symm
      simp [run_concat, run_literal_cons, h, h2]

theorem run_pingTail (pos : Nat) (rest : List Char) :
    (pingTail.run pos rest).isEmpty = false ↔
      ∃ after, rest = 'p' :: 'i' :: 'n' :: 'g' :: after ∧ endOk after := by
  unfold pingTail
  rw [run_literal_concat]
  constructor
  · rintro ⟨d1, rfl, h1⟩
    rw [run_literal_concat] at h1
    obtain ⟨d2, rfl, h2⟩ := h1
    rw [run_literal_concat] at h2
    obtain ⟨d3, rfl, h3⟩ := h2
    rw [run_literal_concat] at h3
    obtain ⟨d4, rfl, h4⟩ := h3
    exact ⟨d4, rfl, (run_closing _ _).mp h4⟩
  · rintro ⟨after, rfl, h⟩
    refine ⟨_, rfl, ?_⟩
    rw [run_literal_concat]
    refine ⟨_, rfl, ?_⟩
    rw [run_literal_concat]
    refine ⟨_, rfl, ?_⟩
    rw [run_literal_concat]
    exact ⟨_, rfl, (run_closing _ _).mpr h⟩

theorem isEmpty_append_false {α : Type} (xs ys : List α) :
    (xs ++ ys).isEmpty = false ↔ xs.isEmpty = false ∨ ys.isEmpty = false := by
  cases xs <;> simp

theorem run_pingPattern (pos : Nat) (rest : List Char) :
    (pingPattern.run pos rest).isEmpty = false ↔
      (pos = 0 ∧ ∃ after, rest = 'p' :: 'i' :: 'n' :: 'g' :: after ∧ endOk after) ∨
      (∃ d after, rest = d :: 'p' :: 'i' :: 'n' :: 'g' :: after ∧
        isWordChar d = false ∧ endOk after) := by
  have hsplit : pingPattern.run pos rest =
      (if pos = 0 then pingTail.run pos rest else []) ++
      (match rest with
        | d :: ds => if isWordChar d then [] else pingTail.run (pos + 1) ds
        | [] => []) := by
    show (Regexp.concat (.alternate .beginText .notWordChar) pingTail).run pos rest = _
    rw [run_concat, run_alternate, List.flatMap_append]
    congr 1
    · by_cases h : pos = 0 <;> simp [Regexp.run, h]
    · cases rest with
      | nil => simp [Regexp.run]
      | cons d ds => by_cases h : isWordChar d = true <;> simp [Regexp.run, h]
  rw [hsplit, isEmpty_append_false]
  constructor
  · rintro (h | h)
    · left
      by_cases hp : pos = 0
      · rw [if_pos hp] at h
        exact ⟨hp, (run_pingTail _ _).mp h⟩
      · rw [if_neg hp] at h
        simp at h
    · right
      cases rest with
      | nil => simp at h
      | cons d ds =>
        by_cases hw : isWordChar d = true
        · simp [hw] at h
        · simp only [hw] at h
          obtain ⟨after, rfl, hend⟩ := (run_pingTail _ _).mp h
          exact ⟨d, after, rfl, by simpa using hw, hend⟩
  · rintro (⟨hp, h⟩ | ⟨d, after, rfl, hw, hend⟩)
    · left
      rw [if_pos hp]
      exact (run_pingTail _ _).mpr h
    · right
      simp only [hw]
      exact (run_pingTail _ _).mpr ⟨after, rfl, hend⟩

theorem search_cons (re : Regexp) (pos : Nat) (c : Char) (cs : List Char) :
    re.search pos (c :: cs) =
      (!(re.run pos (c :: cs)).isEmpty || re.search (pos + 1) cs) := rfl

theorem search_nil (re : Regexp) (pos : Nat) :
    re.search pos [] = !(re.run pos []).isEmpty := rfl

theorem search_pingPattern (s : List Char) : ∀ pos : Nat,
    pingPattern.search pos s = true ↔
      ∃ before after, s = before ++ 'p' :: 'i' :: 'n' :: 'g' :: after ∧
        ((pos = 0 ∧ before = []) ∨
          ∃ c, before.getLast? = some c ∧ isWordChar c = false) ∧
        endOk after := by
  induction s with
  | nil =>
    intro pos
    rw [search_nil]
    constructor
    · intro h
      have h2 : (pingPattern.run pos []).isEmpty = false := by simpa using h
      rcases (run_pingPattern pos []).mp h2 with ⟨_, after, hnil, _⟩ | ⟨d, after, hnil, _⟩
      · simp at hnil
      · simp at hnil
    · rintro ⟨before, after, hnil, _⟩
      simp at hnil
  | cons c cs ih =>
    intro pos
    rw [search_cons, Bool.or_eq_true]
    constructor
    · rintro (h | h)
      · have h2 : (pingPattern.run pos (c :: cs)).isEmpty = false := by simpa using h
        rcases (run_pingPattern pos (c :: cs)).mp h2 with
          ⟨hp, after, heq, hend⟩ | ⟨d, after, heq, hw, hend⟩
        · exact ⟨[], after, by simpa using heq, Or.inl ⟨hp, rfl⟩, hend⟩
        · exact ⟨[d], after, by simpa using heq, Or.inr ⟨d, by simp, hw⟩, hend⟩
      · obtain ⟨before, after, heq, hctx, hend⟩ := (ih (pos + 1)).mp h
        rcases hctx with ⟨hp, _⟩ | ⟨e, hlast, hw⟩
        · omega
        · refine ⟨c :: before, after, by simp [heq], Or.inr ⟨e, ?_, hw⟩, hend⟩
          cases before with
          | nil => simp at hlast
          | cons b bs => simpa [List.getLast?_cons_cons] using hlast
    · rintro ⟨before, after, heq, hctx, hend⟩
      match before, heq, hctx with
      | [], heq, hctx =>
        left
        rcases hctx with ⟨hp, _⟩ | ⟨e, hlast, _⟩
        · have h2 := (run_pingPattern pos (c :: cs)).mpr
            (Or.inl ⟨hp, after, by simpa using heq, hend⟩)
          simp [h2]
        · simp at hlast
      | [d], heq, hctx =>
        left
        rcases hctx with ⟨_, hb⟩ | ⟨e, hlast, hw⟩
        · simp at hb
        · have he : d = e := by simpa using hlast
          subst he
          have h2 := (run_pingPattern pos (c :: cs)).mpr
            (Or.inr ⟨d, after, by simpa using heq, hw, hend⟩)
          simp [h2]
      | d :: b :: bs, heq, hctx =>
        right
        have hcs : cs = (b :: bs) ++ 'p' :: 'i' :: 'n' :: 'g' :: after := by
          simp at heq
          simp [heq.2]
        rcases hctx with ⟨_, hb⟩ | ⟨e, hlast, hw⟩
        · simp at hb
        · exact (ih (pos + 1)).mpr ⟨b :: bs, after, hcs,
            Or.inr ⟨e, by simpa [List.getLast?_cons_cons] using hlast, hw⟩, hend⟩

/-- The pattern of the bot matches a text exactly when the text holds a
whole-word `ping`. -/
theorem matchString_iff_wholeWord (s : String) :
    MatchString pingPattern s = true ↔ WholeWordPing s.toList := by
  unfold MatchString WholeWordPing
  rw [search_pingPattern]
  constructor
  · rintro ⟨before, after, heq, hctx, hend⟩
    refine ⟨before, after, heq, ?_, hend⟩
    rcases hctx with ⟨_, hb⟩ | h
    · exact Or.inl hb
    · exact Or.inr h
  · rintro ⟨before, after, heq, hctx, hend⟩
    refine ⟨before, after, heq, ?_, hend⟩
    rcases hctx with hb | h
    · exact Or.inl ⟨rfl, hb⟩
    · exact Or.inr h

theorem not_wholeWord_iff (s : String) :
    ¬ WholeWordPing s.toList ↔ MatchString pingPattern s = false := by
  rw [← matchString_iff_wholeWord]
  simp

/-! ## The handler on a decoded post -/

theorem handleWebSocket_other_kind (PostFromJson : String → Option Post) (client : Client)
    (done : List Op) (event : WebSocketEvent) (userID : String)
    (channelIDsToIgnore : List String) (hkind : event.Event ≠ WEBSOCKET_EVENT_POSTED) :
    handleWebSocket PostFromJson client done event userID channelIDsToIgnore =
      { ops := [], completion := .returned } := by
  simp [handleWebSocket, hkind]

theorem handleWebSocket_decoded (PostFromJson : String → Option Post) (client : Client)
    (done : List Op) (event : WebSocketEvent) (userID : String)
    (channelIDsToIgnore : List String) (text : String) (P : Post)
    (hkind : event.Event = WEBSOCKET_EVENT_POSTED)
    (hdata : mapIndex event.Data "post" = some (Value.str text))
    (hparse : PostFromJson text = some P) :
    handleWebSocket PostFromJson client done event userID channelIDsToIgnore =
      if P.UserId = userID then { ops := [], completion := .returned }
      else if P.ChannelId ∈ channelIDsToIgnore then { ops := [], completion := .returned }
      else if MatchString pingPattern P.Message = true then
        sendReplyMsgToChannel client done "PONG" P.ChannelId P.Id
      else { ops := [], completion := .returned } := by
  simp [handleWebSocket, hkind, hdata, hparse, assertString]

theorem createdPosts_sendReply (client : Client) (done : List Op)
    (msg channelID replyToID : String) :
    createdPosts (sendReplyMsgToChannel client done msg channelID replyToID).ops =
        [{ ChannelId := channelID, Message := msg, RootId := replyToID }] ∧
      (sendReplyMsgToChannel client done msg channelID replyToID).completion = .returned := by
  cases h : client.CreatePost done
      { ChannelId := channelID, Message := msg, RootId := replyToID } <;>
    simp [sendReplyMsgToChannel, h, createdPosts]

/-! ## Properties of the handler -/

/-- C1: a posted event whose payload decodes to a post `P` by another user, in
a channel that is not ignored, with a body matched by the ping pattern, makes
`handleWebSocket` hand exactly one post to `CreatePost`: body `PONG`, channel
of `P`, root `P.Id`; the bodies `ping`, `can you ping?` and `ping!` match. -/
theorem handleWebSocket_ping_replies_once (PostFromJson : String → Option Post)
    (client : Client) (done : List Op) (event : WebSocketEvent) (userID : String)
    (channelIDsToIgnore : List String) (text : String) (P : Post)
    (hkind : event.Event = WEBSOCKET_EVENT_POSTED)
    (hdata : mapIndex event.Data "post" = some (Value.str text))
    (hparse : PostFromJson text = some P)
    (huser : P.UserId ≠ userID)
    (hchan : P.ChannelId ∉ channelIDsToIgnore)
    (hmatch : MatchString pingPattern P.Message = true) :
    createdPosts
        (handleWebSocket PostFromJson client done event userID channelIDsToIgnore).ops =
        [{ ChannelId := P.ChannelId, Message := "PONG", RootId := P.Id }] ∧
      (handleWebSocket PostFromJson client done event userID channelIDsToIgnore).completion =
        .returned ∧
      MatchString pingPattern "ping" = true ∧
      MatchString pingPattern "can you ping?" = true ∧
      MatchString pingPattern "ping!" = true := by
  rw [handleWebSocket_decoded PostFromJson client done event userID channelIDsToIgnore
    text P hkind hdata hparse, if_neg huser, if_neg hchan, if_pos hmatch]
  have h := createdPosts_sendReply client done "PONG" P.ChannelId P.Id
  exact ⟨h.1, h.2, by decide, by decide, by decide⟩

theorem handleWebSocket_ping_replies_once_witness :
    createdPosts (handleWebSocket sampleDecoder sampleClient [] (postedEvent "can you ping?")
        "bot" ["c0"]).ops =
      [{ ChannelId := "c1", Message := "PONG", RootId := "p1" }] :=
  (handleWebSocket_ping_replies_once sampleDecoder sampleClient [] (postedEvent "can you ping?")
    "bot" ["c0"] "can you ping?"
    { Id := "p1", UserId := "u1", ChannelId := "c1", Message := "can you ping?" }
    (by decide) (by decide) (by decide) (by decide) (by decide) (by decide)).1

/-- C2: when the body of the decoded post holds no case-sensitive whole-word
`ping`, `handleWebSocket` makes no call at all and returns, whatever the
author, the channel, the bot id and the ignore list; `pinging`, `sping`,
`hello` and `PING` are such bodies. -/
theorem handleWebSocket_no_whole_word_no_reply (PostFromJson : String → Option Post)
    (client : Client) (done : List Op) (event : WebSocketEvent) (userID : String)
    (channelIDsToIgnore : List String) (text : String) (P : Post)
    (hdata : mapIndex event.Data "post" = some (Value.str text))
    (hparse : PostFromJson text = some P)
    (hbody : ¬ WholeWordPing P.Message.toList) :
    handleWebSocket PostFromJson client done event userID channelIDsToIgnore =
        { ops := [], completion := .returned } ∧
      createdPosts
        (handleWebSocket PostFromJson client done event userID channelIDsToIgnore).ops = [] ∧
      ¬ WholeWordPing "pinging".toList ∧ ¬ WholeWordPing "sping".toList ∧
      ¬ WholeWordPing "hello".toList ∧ ¬ WholeWordPing "PING".toList := by
  have hno : MatchString pingPattern P.Message = false := (not_wholeWord_iff _).mp hbody
  have hrun : handleWebSocket PostFromJson client done event userID channelIDsToIgnore =
      { ops := [], completion := .returned } := by
    by_cases hkind : event.Event = WEBSOCKET_EVENT_POSTED
    · rw [handleWebSocket_decoded PostFromJson client done event userID channelIDsToIgnore
        text P hkind hdata hparse]
      simp [hno]
    · exact handleWebSocket_other_kind _ _ _ _ _ _ hkind
  refine ⟨hrun, by rw [hrun]; rfl, ?_, ?_, ?_, ?_⟩ <;>
    exact (not_wholeWord_iff _).mpr (by decide)

theorem handleWebSocket_no_whole_word_no_reply_witness :
    handleWebSocket sampleDecoder sampleClient [] (postedEvent "pinging") "bot" [] =
      { ops := [], completion := .returned } :=
  (handleWebSocket_no_whole_word_no_reply sampleDecoder sampleClient [] (postedEvent "pinging")
    "bot" [] "pinging"
    { Id := "p1", UserId := "u1", ChannelId := "c1", Message := "pinging" }
    (by decide) (by decide) ((not_wholeWord_iff _).mpr (by decide))).1

/-- C3: a posted event whose post was written by the bot itself makes
`handleWebSocket` return without any call, for every body and ignore list. -/
theorem handleWebSocket_own_post_ignored (PostFromJson : String → Option Post)
    (client : Client) (done : List Op) (event : WebSocketEvent) (userID : String)
    (channelIDsToIgnore : List String) (text : String) (P : Post)
    (hkind : event.Event = WEBSOCKET_EVENT_POSTED)
    (hdata : mapIndex event.Data "post" = some (Value.str text))
    (hparse : PostFromJson text = some P)
    (huser : P.UserId = userID) :
    handleWebSocket PostFromJson client done event userID channelIDsToIgnore =
        { ops := [], completion := .returned } ∧
      createdPosts
        (handleWebSocket PostFromJson client done event userID channelIDsToIgnore).ops = [] := by
  have hrun : handleWebSocket PostFromJson client done event userID channelIDsToIgnore =
      { ops := [], completion := .returned } := by
    rw [handleWebSocket_decoded PostFromJson client done event userID channelIDsToIgnore
      text P hkind hdata hparse, if_pos huser]
  exact ⟨hrun, by rw [hrun]; rfl⟩

theorem handleWebSocket_own_post_ignored_witness :
    createdPosts (handleWebSocket sampleDecoder sampleClient [] (postedEvent "ping")
      "u1" []).ops = [] :=
  (handleWebSocket_own_post_ignored sampleDecoder sampleClient [] (postedEvent "ping")
    "u1" [] "ping" { Id := "p1", UserId := "u1", ChannelId := "c1", Message := "ping" }
    (by decide) (by decide) (by decide) (by decide)).2

/-- C4: a posted event whose post lies in a channel of the ignore list, at any
position of the list, makes `handleWebSocket` return without any call, for
every body and author. -/
theorem handleWebSocket_ignored_channel (PostFromJson : String → Option Post)
    (client : Client) (done : List Op) (event : WebSocketEvent) (userID : String)
    (channelIDsToIgnore : List String) (text : String) (P : Post)
    (hkind : event.Event = WEBSOCKET_EVENT_POSTED)
    (hdata : mapIndex event.Data "post" = some (Value.str text))
    (hparse : PostFromJson text = some P)
    (hchan : P.ChannelId ∈ channelIDsToIgnore) :
    handleWebSocket PostFromJson client done event userID channelIDsToIgnore =
        { ops := [], completion := .returned } ∧
      createdPosts
        (handleWebSocket PostFromJson client done event userID channelIDsToIgnore).ops = [] := by
  have hrun : handleWebSocket PostFromJson client done event userID channelIDsToIgnore =
      { ops := [], completion := .returned } := by
    rw [handleWebSocket_decoded PostFromJson client done event userID channelIDsToIgnore
      text P hkind hdata hparse, if_pos hchan]
    simp
  exact ⟨hrun, by rw [hrun]; rfl⟩

theorem handleWebSocket_ignored_channel_witness :
    createdPosts (handleWebSocket sampleDecoder sampleClient [] (postedEvent "ping")
      "bot" ["c0", "c1"]).ops = [] :=
  (handleWebSocket_ignored_channel sampleDecoder sampleClient [] (postedEvent "ping")
    "bot" ["c0", "c1"] "ping" { Id := "p1", UserId := "u1", ChannelId := "c1", Message := "ping" }
    (by decide) (by decide) (by decide) (by decide)).2

/-- C9: an event of any kind other than `posted` makes `handleWebSocket` return
at once with no call, whatever the payload (also an empty one), the decoder,
the bot id and the ignore list. -/
theorem handleWebSocket_other_kind_noop (kind : String)
    (hkind : kind ≠ WEBSOCKET_EVENT_POSTED) :
    ∀ (PostFromJson : String → Option Post) (client : Client) (done : List Op)
      (data : List (String × Value)) (userID : String) (channelIDsToIgnore : List String),
      handleWebSocket PostFromJson client done { Event := kind, Data := data } userID
          channelIDsToIgnore = { ops := [], completion := .returned } ∧
        createdPosts (handleWebSocket PostFromJson client done { Event := kind, Data := data }
          userID channelIDsToIgnore).ops = [] := by
  intro PostFromJson client done data userID channelIDsToIgnore
  have hrun := handleWebSocket_other_kind PostFromJson client done
    { Event := kind, Data := data } userID channelIDsToIgnore hkind
  exact ⟨hrun, by rw [hrun]; rfl⟩

theorem handleWebSocket_other_kind_noop_witness :
    handleWebSocket sampleDecoder sampleClient [] { Event := "typing", Data := [] } "bot" [] =
      { ops := [], completion := .returned } :=
  (handleWebSocket_other_kind_noop "typing" (by decide) sampleDecoder sampleClient [] [] "bot" []).1

theorem handleWebSocket_undecodable (PostFromJson : String → Option Post)
    (client : Client) (done : List Op) (event : WebSocketEvent) (userID : String)
    (channelIDsToIgnore : List String) (text : String)
    (hdata : mapIndex event.Data "post" = some (Value.str text))
    (hparse : PostFromJson text = none) :
    handleWebSocket PostFromJson client done event userID channelIDsToIgnore =
      { ops := [], completion := .returned } := by
  by_cases hkind : event.Event = WEBSOCKET_EVENT_POSTED <;>
    simp [handleWebSocket, hkind, hdata, hparse, assertString]

/-- C8: on a posted event whose payload has no `post` entry, or whose `post`
entry is not a string, `handleWebSocket` panics instead of returning, and the
receive loop ends with it, whatever events follow. -/
theorem handleWebSocket_missing_post_panics (PostFromJson : String → Option Post)
    (client : Client) (done : List Op) (userID : String) (channelIDsToIgnore : List String)
    (later : List WebSocketEvent) :
    handleWebSocket PostFromJson client done { Event := "posted", Data := [] } userID
        channelIDsToIgnore = { ops := [], completion := .panicked } ∧
      handleWebSocket PostFromJson client done
        { Event := "posted", Data := [("post", Value.null)] } userID
        channelIDsToIgnore = { ops := [], completion := .panicked } ∧
      dispatch PostFromJson client userID channelIDsToIgnore done
        ({ Event := "posted", Data := [] } :: later) = { ops := [], completion := .panicked } := by
  have h1 : handleWebSocket PostFromJson client done { Event := "posted", Data := [] } userID
      channelIDsToIgnore = { ops := [], completion := .panicked } := by
    simp [handleWebSocket, WEBSOCKET_EVENT_POSTED, mapIndex, assertString]
  refine ⟨h1, ?_, ?_⟩
  · simp [handleWebSocket, WEBSOCKET_EVENT_POSTED, mapIndex, assertString]
  · simp [dispatch, h1]

/-- C10: when `CreatePost` answers the reply with an error, the helper
`sendReplyMsgToChannel` has called it once, printed two lines and returned; so
`handleWebSocket` returns as well and the receive loop handles the events that
follow. -/
theorem createPost_error_absorbed (PostFromJson : String → Option Post)
    (client : Client) (done : List Op) (event : WebSocketEvent) (userID : String)
    (channelIDsToIgnore : List String) (text : String) (P : Post) (err : String)
    (later : List WebSocketEvent)
    (hkind : event.Event = WEBSOCKET_EVENT_POSTED)
    (hdata : mapIndex event.Data "post" = some (Value.str text))
    (hparse : PostFromJson text = some P)
    (huser : P.UserId ≠ userID)
    (hchan : P.ChannelId ∉ channelIDsToIgnore)
    (hmatch : MatchString pingPattern P.Message = true)
    (herr : client.CreatePost done
      { ChannelId := P.ChannelId, Message := "PONG", RootId := P.Id } = some err) :
    sendReplyMsgToChannel client done "PONG" P.ChannelId P.Id =
        { ops := [Op.CreatePost { ChannelId := P.ChannelId, Message := "PONG", RootId := P.Id },
                  Op.Println "Failed to send a message to the channel", Op.Println err],
          completion := .returned } ∧
      handleWebSocket PostFromJson client done event userID channelIDsToIgnore =
        sendReplyMsgToChannel client done "PONG" P.ChannelId P.Id ∧
      dispatch PostFromJson client userID channelIDsToIgnore done (event :: later) =
        { ops := (sendReplyMsgToChannel client done "PONG" P.ChannelId P.Id).ops ++
            (dispatch PostFromJson client userID channelIDsToIgnore
              (done ++ (sendReplyMsgToChannel client done "PONG" P.ChannelId P.Id).ops)
              later).ops,
          completion := (dispatch PostFromJson client userID channelIDsToIgnore
              (done ++ (sendReplyMsgToChannel client done "PONG" P.ChannelId P.Id).ops)
              later).completion } := by
  have hsend : sendReplyMsgToChannel client done "PONG" P.ChannelId P.Id =
      { ops := [Op.CreatePost { ChannelId := P.ChannelId, Message := "PONG", RootId := P.Id },
                Op.Println "Failed to send a message to the channel", Op.Println err],
        completion := .returned } := by
    simp [sendReplyMsgToChannel, herr]
  have hrun : handleWebSocket PostFromJson client done event userID channelIDsToIgnore =
      sendReplyMsgToChannel client done "PONG" P.ChannelId P.Id := by
    rw [handleWebSocket_decoded PostFromJson client done event userID channelIDsToIgnore
      text P hkind hdata hparse, if_neg huser, if_neg hchan, if_pos hmatch]
  refine ⟨hsend, hrun, ?_⟩
  simp [dispatch, hrun, hsend]

theorem createPost_error_absorbed_witness :
    dispatch sampleDecoder busyClient "bot" [] [] [postedEvent "ping", postedEvent "ping!"] =
      { ops := [Op.CreatePost { ChannelId := "c1", Message := "PONG", RootId := "p1" },
                Op.Println "Failed to send a message to the channel",
                Op.Println "server busy",
                Op.CreatePost { ChannelId := "c1", Message := "PONG", RootId := "p1" }],
        completion := .returned } := by
  have h := (createPost_error_absorbed sampleDecoder busyClient [] (postedEvent "ping") "bot" []
    "ping" { Id := "p1", UserId := "u1", ChannelId := "c1", Message := "ping" } "server busy"
    [postedEvent "ping!"]
    (by decide) (by decide) (by decide) (by decide) (by decide) (by decide) (by decide)).2.2
  rw [h]
  decide

/-! ## The ignore list -/

theorem foldl_channelStep_fst (monitor : Bool) (channels : List Channel) :
    ∀ st : List String × List Op,
      (channels.foldl (channelStep monitor) st).1 =
        st.1 ++ (channels.filter
          (fun c => decide (c.Name = "town-square") && !monitor)).map Channel.Id := by
  induction channels with
  | nil => intro st; simp
  | cons c cs ih =>
    intro st
    rw [List.foldl_cons, ih]
    by_cases hn : c.Name = "town-square" <;> cases monitor <;>
      simp [channelStep, hn, List.filter_cons]

theorem buildIgnoreList_eq (monitor : Bool) (channels : List Channel) :
    buildIgnoreList monitor channels =
      (channels.filter (fun c => decide (c.Name = "town-square") && !monitor)).map
        Channel.Id := by
  unfold buildIgnoreList scanChannels
  rw [foldl_channelStep_fst]
  simp

theorem mem_buildIgnoreList (monitor : Bool) (channels : List Channel) (id : String) :
    id ∈ buildIgnoreList monitor channels ↔
      (monitor = false ∧ ∃ c ∈ channels, c.Name = "town-square" ∧ c.Id = id) := by
  rw [buildIgnoreList_eq]
  cases monitor <;> simp
  constructor
  · rintro ⟨c, ⟨hc, hn⟩, hid⟩
    exact ⟨c, hc, hn, hid⟩
  · rintro ⟨c, hc, hn, hid⟩
    exact ⟨c, ⟨hc, hn⟩, hid⟩

theorem eq_of_id_eq (channels : List Channel) (hnodup : (channels.map Channel.Id).Nodup)
    (d c : Channel) (hd : d ∈ channels) (hc : c ∈ channels) (hid : d.Id = c.Id) : d = c :=
  List.inj_on_of_nodup_map hnodup hd hc hid

/-- C5: the ignore list built from a channel list holds exactly the ids of the
channels named `town-square` when the flag is false, in list order; the loop
body leaves the list as it is for a channel of any other name; with the flag
true the list is empty; for channels with distinct ids, the id of a channel of
the list is in the ignore list exactly when the channel is named `town-square`
and the flag is false; a start-up that succeeds serves with this list. -/
theorem ignore_list_is_town_square (monitor : Bool) (channels : List Channel) :
    buildIgnoreList monitor channels =
        (channels.filter (fun c => decide (c.Name = "town-square") && !monitor)).map
          Channel.Id ∧
      (∀ id, id ∈ buildIgnoreList monitor channels ↔
        (monitor = false ∧ ∃ c ∈ channels, c.Name = "town-square" ∧ c.Id = id)) ∧
      (∀ (st : List String × List Op) (c : Channel), c.Name ≠ "town-square" →
        (channelStep monitor st c).1 = st.1) ∧
      buildIgnoreList true channels = [] ∧
      (∀ (c : Channel), c ∈ channels → (channels.map Channel.Id).Nodup →
        (c.Id ∈ buildIgnoreList monitor channels ↔
          (c.Name = "town-square" ∧ monitor = false))) ∧
      (∀ (configuredTeam : String) (client : Client) (props : List (String × String))
        (botUser : User) (authToken : String) (teams : List Team) (botTeam : Team),
        client.GetPing = .ok props →
        client.Login botName botPassword = .ok (botUser, authToken) →
        client.GetInitialLoad = .ok teams →
        teams.find? (fun team => decide (team.Name = configuredTeam)) = some botTeam →
        client.GetChannels botTeam.Id = .ok channels →
        client.NewWebSocketClient "ws://localhost:8065" authToken = .ok () →
        (bootstrap configuredTeam monitor client).ending =
          .serving botUser.Id (buildIgnoreList monitor channels)) := by
  refine ⟨buildIgnoreList_eq monitor channels, ?_, ?_, ?_, ?_, ?_⟩
  · exact mem_buildIgnoreList monitor channels
  · intro st c hn
    simp [channelStep, hn]
  · rw [buildIgnoreList_eq]
    simp
  · intro c hc hnodup
    rw [mem_buildIgnoreList]
    constructor
    · rintro ⟨hm, d, hd, hn, hid⟩
      have hcd : d = c := eq_of_id_eq channels hnodup d c hd hc hid
      exact ⟨hcd ▸ hn, hm⟩
    · rintro ⟨hn, hm⟩
      exact ⟨hm, c, hc, hn, rfl⟩
  · intro configuredTeam client props botUser authToken teams botTeam
      hping hlogin hload hfind hch hws
    simp [bootstrap, hping, hlogin, hload, hfind, hch, hws, buildIgnoreList]

theorem ignore_list_is_town_square_witness :
    buildIgnoreList false
        [{ Id := "c0", Name := "town-square" }, { Id := "c1", Name := "general" }] = ["c0"] ∧
      (channelStep false (["c0"], []) { Id := "c1", Name := "general" }).1 = ["c0"] := by
  have h := ignore_list_is_town_square false
    [{ Id := "c0", Name := "town-square" }, { Id := "c1", Name := "general" }]
  exact ⟨h.1.trans (by decide), h.2.2.1 (["c0"], []) { Id := "c1", Name := "general" } (by decide)⟩

/-! ## Start-up failures -/

theorem mainWith_of_exited (configuredTeam : String) (monitor : Bool)
    (PostFromJson : String → Option Post) (client : Client) (events : List WebSocketEvent)
    (ops : List Op) (status : Nat)
    (h : bootstrap configuredTeam monitor client = { ops := ops, ending := .exited status }) :
    mainWith configuredTeam monitor PostFromJson client events =
      { ops := ops, ending := .exited status } := by
  simp [mainWith, h]

theorem bootstrap_ping_error (configuredTeam : String) (monitor : Bool) (client : Client)
    (err : String) (hping : client.GetPing = .error err) :
    bootstrap configuredTeam monitor client =
      { ops := [Op.GetPing,
          Op.Println "There was a problem pinging the Mattermost server.  Are you sure it's running?",
          Op.Println err],
        ending := .exited 1 } := by
  simp [bootstrap, hping]

theorem bootstrap_login_error (configuredTeam : String) (monitor : Bool) (client : Client)
    (props : List (String × String)) (err : String)
    (hping : client.GetPing = .ok props)
    (hlogin : client.Login botName botPassword = .error err) :
    bootstrap configuredTeam monitor client =
      { ops := [Op.GetPing,
          Op.Println ("Server detected and is running version " ++ propsIndex props "version"),
          Op.Login botName botPassword,
          Op.Println "There was a problem logging into the Mattermost server.  Are you sure ran the setup steps from the README.md?",
          Op.Println err],
        ending := .exited 1 } := by
  simp [bootstrap, hping, hlogin]

theorem bootstrap_load_error (configuredTeam : String) (monitor : Bool) (client : Client)
    (props : List (String × String)) (botUser : User) (authToken err : String)
    (hping : client.GetPing = .ok props)
    (hlogin : client.Login botName botPassword = .ok (botUser, authToken))
    (hload : client.GetInitialLoad = .error err) :
    bootstrap configuredTeam monitor client =
      { ops := [Op.GetPing,
          Op.Println ("Server detected and is running version " ++ propsIndex props "version"),
          Op.Login botName botPassword,
          Op.GetInitialLoad,
          Op.Println "We failed to get the initial load",
          Op.Println err],
        ending := .exited 1 } := by
  simp [bootstrap, hping, hlogin, hload]

theorem find_team_none (configuredTeam : String) (teams : List Team)
    (hnone : ∀ t ∈ teams, t.Name ≠ configuredTeam) :
    teams.find? (fun team => decide (team.Name = configuredTeam)) = none := by
  simpa using hnone

theorem find_team_first (configuredTeam : String) (before after : List Team) (t : Team)
    (hbefore : ∀ u ∈ before, u.Name ≠ configuredTeam) (ht : t.Name = configuredTeam) :
    (before ++ t :: after).find? (fun team => decide (team.Name = configuredTeam)) =
      some t := by
  induction before with
  | nil => simp [ht]
  | cons b bs ih =>
    have hb : b.Name ≠ configuredTeam := hbefore b (by simp)
    have hbs : ∀ u ∈ bs, u.Name ≠ configuredTeam := fun u hu => hbefore u (by simp [hu])
    simp [List.find?_cons, hb, ih hbs]

theorem bootstrap_no_team (configuredTeam : String) (monitor : Bool) (client : Client)
    (props : List (String × String)) (botUser : User) (authToken : String)
    (teams : List Team)
    (hping : client.GetPing = .ok props)
    (hlogin : client.Login botName botPassword = .ok (botUser, authToken))
    (hload : client.GetInitialLoad = .ok teams)
    (hnone : ∀ t ∈ teams, t.Name ≠ configuredTeam) :
    bootstrap configuredTeam monitor client =
      { ops := [Op.GetPing,
          Op.Println ("Server detected and is running version " ++ propsIndex props "version"),
          Op.Login botName botPassword,
          Op.GetInitialLoad,
          Op.Println ("We do not appear to be a member of the team '" ++ configuredTeam ++ "'")],
        ending := .exited 1 } := by
  have hfind := find_team_none configuredTeam teams hnone
  simp [bootstrap, hping, hlogin, hload, hfind]

theorem boundTeams_foldl_channelStep (monitor : Bool) (channels : List Channel) :
    ∀ st : List String × List Op, boundTeams st.2 = [] →
      boundTeams (channels.foldl (channelStep monitor) st).2 = [] := by
  induction channels with
  | nil => intro st h; simpa using h
  | cons c cs ih =>
    intro st h
    rw [List.foldl_cons]
    apply ih
    unfold boundTeams at h ⊢
    by_cases hn : c.Name = "town-square" <;> cases monitor <;>
      simp [channelStep, hn, List.filterMap_append, h]

theorem bootstrap_team_found (configuredTeam : String) (monitor : Bool) (client : Client)
    (props : List (String × String)) (botUser : User) (authToken : String)
    (teams : List Team) (botTeam : Team)
    (hping : client.GetPing = .ok props)
    (hlogin : client.Login botName botPassword = .ok (botUser, authToken))
    (hload : client.GetInitialLoad = .ok teams)
    (hfind : teams.find? (fun team => decide (team.Name = configuredTeam)) = some botTeam) :
    boundTeams (bootstrap configuredTeam monitor client).ops = [botTeam.Id] := by
  have hscan : boundTeams (scanChannels monitor (match client.GetChannels botTeam.Id with
      | .ok channels => channels
      | .error _ => [])).2 = [] :=
    boundTeams_foldl_channelStep monitor _ ([], []) rfl
  cases hch : client.GetChannels botTeam.Id with
  | error e =>
    cases hws : client.NewWebSocketClient "ws://localhost:8065" authToken <;>
      simp [bootstrap, hping, hlogin, hload, hfind, hch, hws, boundTeams]
  | ok channels =>
    rw [hch] at hscan
    simp only [boundTeams] at hscan
    cases hws : client.NewWebSocketClient "ws://localhost:8065" authToken <;>
      simp [bootstrap, hping, hlogin, hload, hfind, hch, hws, boundTeams,
        List.filterMap_append, hscan]

/-- C6: when the loaded team list has no team with the configured name, the
program exits with status 1 and its whole trace holds no `SetTeamId`,
`GetChannels`, websocket or `CreatePost` operation, whatever events the server
would deliver; when a team matches, the first such team of the list is the one
team bound with `SetTeamId`. -/
theorem no_matching_team_exits (configuredTeam : String) (monitor : Bool)
    (PostFromJson : String → Option Post) (client : Client) (events : List WebSocketEvent)
    (teams : List Team) (hload : client.GetInitialLoad = .ok teams) :
    ((∀ t ∈ teams, t.Name ≠ configuredTeam) →
      (mainWith configuredTeam monitor PostFromJson client events).ending = .exited 1 ∧
      ∀ op ∈ (mainWith configuredTeam monitor PostFromJson client events).ops,
        needsTeam op = false) ∧
    (∀ (before after : List Team) (t : Team) (props : List (String × String))
      (botUser : User) (authToken : String),
      client.GetPing = .ok props →
      client.Login botName botPassword = .ok (botUser, authToken) →
      teams = before ++ t :: after →
      (∀ u ∈ before, u.Name ≠ configuredTeam) → t.Name = configuredTeam →
      boundTeams (bootstrap configuredTeam monitor client).ops = [t.Id]) := by
  constructor
  · intro hnone
    cases hping : client.GetPing with
    | error e =>
      rw [mainWith_of_exited _ _ _ _ _ _ _ (bootstrap_ping_error configuredTeam monitor client e hping)]
      simp [needsTeam]
    | ok props =>
      cases hlogin : client.Login botName botPassword with
      | error e =>
        rw [mainWith_of_exited _ _ _ _ _ _ _
          (bootstrap_login_error configuredTeam monitor client props e hping hlogin)]
        simp [needsTeam]
      | ok pair =>
        obtain ⟨botUser, authToken⟩ := pair
        rw [mainWith_of_exited _ _ _ _ _ _ _
          (bootstrap_no_team configuredTeam monitor client props botUser authToken teams
            hping hlogin hload hnone)]
        simp [needsTeam]
  · intro before after t props botUser authToken hping hlogin hteams hbefore ht
    subst hteams
    exact bootstrap_team_found configuredTeam monitor client props botUser authToken _ t
      hping hlogin hload (find_team_first configuredTeam before after t hbefore ht)

theorem no_matching_team_exits_witness :
    (main sampleDecoder otherTeamsClient [postedEvent "ping"]).ending = .exited 1 ∧
      boundTeams (bootstrap "other" false sampleClient).ops = ["t2"] := by
  have h1 := no_matching_team_exits teamName monitorTownSquare sampleDecoder otherTeamsClient
    [postedEvent "ping"] [{ Id := "t2", Name := "other" }] rfl
  have h2 := no_matching_team_exits "other" false sampleDecoder sampleClient []
    [{ Id := "t1", Name := "test" }, { Id := "t2", Name := "other" }] rfl
  exact ⟨(h1.1 (by decide)).1,
    h2.2 [{ Id := "t1", Name := "test" }] [] { Id := "t2", Name := "other" }
      [("version", "3.4.0")] { Id := "bot", Username := "samplebot" } "token"
      rfl rfl rfl (by decide) rfl⟩

theorem bootstrap_channels_error (configuredTeam : String) (monitor : Bool) (client : Client)
    (props : List (String × String)) (botUser : User) (authToken : String)
    (teams : List Team) (botTeam : Team) (err : String)
    (hping : client.GetPing = .ok props)
    (hlogin : client.Login botName botPassword = .ok (botUser, authToken))
    (hload : client.GetInitialLoad = .ok teams)
    (hfind : teams.find? (fun team => decide (team.Name = configuredTeam)) = some botTeam)
    (hch : client.GetChannels botTeam.Id = .error err) :
    bootstrap configuredTeam monitor client =
      match client.NewWebSocketClient "ws://localhost:8065" authToken with
      | .error wsErr =>
        { ops := [Op.GetPing,
            Op.Println ("Server detected and is running version " ++ propsIndex props "version"),
            Op.Login botName botPassword,
            Op.GetInitialLoad,
            Op.SetTeamId botTeam.Id,
            Op.GetChannels "",
            Op.Printf "Couldn't get channels: %q\n" err,
            Op.NewWebSocketClient "ws://localhost:8065" authToken,
            Op.Println "We failed to connect to the web socket",
            Op.Println wsErr,
            Op.Listen],
          ending := .panicked }
      | .ok _ =>
        { ops := [Op.GetPing,
            Op.Println ("Server detected and is running version " ++ propsIndex props "version"),
            Op.Login botName botPassword,
            Op.GetInitialLoad,
            Op.SetTeamId botTeam.Id,
            Op.GetChannels "",
            Op.Printf "Couldn't get channels: %q\n" err,
            Op.NewWebSocketClient "ws://localhost:8065" authToken,
            Op.Listen],
          ending := .serving botUser.Id [] } := by
  cases hws : client.NewWebSocketClient "ws://localhost:8065" authToken <;>
    simp [bootstrap, hping, hlogin, hload, hfind, hch, hws]

/-- C7, as the claim states it, fails: on a server whose channel listing fails
while every other call succeeds, `main` prints one line, does not exit, and
goes on to open the websocket and to listen, with an empty ignore list. -/
theorem channel_listing_failure_does_not_exit :
    noChannelsClient.GetChannels "t1" = .error "no channels" ∧
      main sampleDecoder noChannelsClient [] =
        { ops := [Op.GetPing,
            Op.Println "Server detected and is running version 3.4.0",
            Op.Login "samplebot" "password1",
            Op.GetInitialLoad,
            Op.SetTeamId "t1",
            Op.GetChannels "",
            Op.Printf "Couldn't get channels: %q\n" "no channels",
            Op.NewWebSocketClient "ws://localhost:8065" "token",
            Op.Listen],
          ending := .serving "bot" [] } ∧
      (main sampleDecoder noChannelsClient []).ending ≠ .exited 1 :=
  ⟨rfl, by decide, by decide⟩

/-- C7, amended: a failure of the liveness ping, of the login, of the initial
load or of the team selection makes the program print a diagnostic and exit
with status 1 with no later step performed; a failure of the channel listing
makes it print one line and go on, without exiting, to open the websocket with
an empty ignore list. -/
theorem bootstrap_failure_handling (configuredTeam : String) (monitor : Bool)
    (PostFromJson : String → Option Post) (client : Client) (events : List WebSocketEvent) :
    (∀ err, client.GetPing = .error err →
      mainWith configuredTeam monitor PostFromJson client events =
        { ops := [Op.GetPing,
            Op.Println "There was a problem pinging the Mattermost server.  Are you sure it's running?",
            Op.Println err],
          ending := .exited 1 }) ∧
    (∀ props err, client.GetPing = .ok props →
      client.Login botName botPassword = .error err →
      mainWith configuredTeam monitor PostFromJson client events =
        { ops := [Op.GetPing,
            Op.Println ("Server detected and is running version " ++ propsIndex props "version"),
            Op.Login botName botPassword,
            Op.Println "There was a problem logging into the Mattermost server.  Are you sure ran the setup steps from the README.md?",
            Op.Println err],
          ending := .exited 1 }) ∧
    (∀ props botUser authToken err, client.GetPing = .ok props →
      client.Login botName botPassword = .ok (botUser, authToken) →
      client.GetInitialLoad = .error err →
      mainWith configuredTeam monitor PostFromJson client events =
        { ops := [Op.GetPing,
            Op.Println ("Server detected and is running version " ++ propsIndex props "version"),
            Op.Login botName botPassword,
            Op.GetInitialLoad,
            Op.Println "We failed to get the initial load",
            Op.Println err],
          ending := .exited 1 }) ∧
    (∀ props botUser authToken teams, client.GetPing = .ok props →
      client.Login botName botPassword = .ok (botUser, authToken) →
      client.GetInitialLoad = .ok teams →
      (∀ t ∈ teams, t.Name ≠ configuredTeam) →
      mainWith configuredTeam monitor PostFromJson client events =
        { ops := [Op.GetPing,
            Op.Println ("Server detected and is running version " ++ propsIndex props "version"),
            Op.Login botName botPassword,
            Op.GetInitialLoad,
            Op.Println ("We do not appear to be a member of the team '" ++ configuredTeam ++ "'")],
          ending := .exited 1 }) ∧
    (∀ props botUser authToken teams botTeam err, client.GetPing = .ok props →
      client.Login botName botPassword = .ok (botUser, authToken) →
      client.GetInitialLoad = .ok teams →
      teams.find? (fun team => decide (team.Name = configuredTeam)) = some botTeam →
      client.GetChannels botTeam.Id = .error err →
      (∃ later, (bootstrap configuredTeam monitor client).ops =
        [Op.GetPing,
          Op.Println ("Server detected and is running version " ++ propsIndex props "version"),
          Op.Login botName botPassword,
          Op.GetInitialLoad,
          Op.SetTeamId botTeam.Id,
          Op.GetChannels "",
          Op.Printf "Couldn't get channels: %q\n" err,
          Op.NewWebSocketClient "ws://localhost:8065" authToken] ++ later) ∧
      ((bootstrap configuredTeam monitor client).ending = .serving botUser.Id [] ∨
        (bootstrap configuredTeam monitor client).ending = .panicked)) := by
  refine ⟨?_, ?_, ?_, ?_, ?_⟩
  · intro err hping
    exact mainWith_of_exited _ _ _ _ _ _ _ (bootstrap_ping_error _ _ _ err hping)
  · intro props err hping hlogin
    exact mainWith_of_exited _ _ _ _ _ _ _ (bootstrap_login_error _ _ _ props err hping hlogin)
  · intro props botUser authToken err hping hlogin hload
    exact mainWith_of_exited _ _ _ _ _ _ _
      (bootstrap_load_error _ _ _ props botUser authToken err hping hlogin hload)
  · intro props botUser authToken teams hping hlogin hload hnone
    exact mainWith_of_exited _ _ _ _ _ _ _
      (bootstrap_no_team _ _ _ props botUser authToken teams hping hlogin hload hnone)
  · intro props botUser authToken teams botTeam err hping hlogin hload hfind hch
    rw [bootstrap_channels_error configuredTeam monitor client props botUser authToken teams
      botTeam err hping hlogin hload hfind hch]
    cases client.NewWebSocketClient "ws://localhost:8065" authToken with
    | error wsErr => exact ⟨⟨_, rfl⟩, Or.inr rfl⟩
    | ok u => exact ⟨⟨_, rfl⟩, Or.inl rfl⟩

theorem bootstrap_failure_handling_witness :
    main sampleDecoder downClient [postedEvent "ping"] =
      { ops := [Op.GetPing,
          Op.Println "There was a problem pinging the Mattermost server.  Are you sure it's running?",
          Op.Println "connection refused"],
        ending := .exited 1 } :=
  (bootstrap_failure_handling teamName monitorTownSquare sampleDecoder downClient
    [postedEvent "ping"]).1 "connection refused" rfl

end Bot
